import Mathlib

/-
  Shallow embedding of src/src/vertical-output.cpp (DistroAV vertical NDI
  output module).

  The module's mutable state is the global `struct vertical_output_context
  vctx`, embedded as `VCtx`.  All interaction with the OBS host happens
  through external calls (obs_output_*, proc_handler_call, canvas
  enumeration, signal_handler_*); the embedding records every such call as
  an event in a trace (`List Ev`) and takes the host's responses from an
  environment record `Env`.  Each C++ function becomes a Lean function
  from the environment and the current context to the new context paired
  with the trace of external calls it performed.

  Pointer-valued handles (obs_output_t*, video_t*, audio_t*) are embedded
  as `Option Nat`: `none` is the null pointer.  QString fields are `String`
  (a QString built from a null char* is the empty string).  The
  conditional compilation flag HAVE_OBS_CANVAS_API is embedded as the
  runtime flag `Env.canvasApi`.
-/

set_option autoImplicit false

namespace VerticalOutput

/-- Name of the vertical canvas looked for during canvas enumeration
(AITUM_VERTICAL_CANVAS_NAME in the source). -/
def AITUM_VERTICAL_CANVAS_NAME : String := "Aitum Vertical"

/-- A canvas as seen through the OBS frontend canvas list: a name and the
(possibly null) video handle that obs_canvas_get_video would return for it. -/
structure Canvas where
  name : String
  video : Option Nat
deriving DecidableEq, Repr

/-- The settings dictionary (obs_data_t) passed to obs_output_create:
fields that the module sets.  `uses_audio := none` means the field was
not set in the dictionary. -/
structure OutSettings where
  ndi_name : String
  ndi_groups : String
  uses_audio : Option Bool
deriving DecidableEq, Repr

/-- One external call made by the module, recorded in order. -/
inductive Ev where
  | callVendorProc
  | enumCanvases
  | getMainVideo
  | setMedia (out : Option Nat) (video : Option Nat) (audio : Option Nat)
  | outputStart (out : Option Nat) (ok : Bool)
  | outputStop (out : Option Nat)
  | getLastErrorOf (out : Option Nat)
  | connectSig (out : Option Nat) (sig : String)
  | disconnectSig (out : Option Nat) (sig : String)
  | releaseOutput (out : Option Nat)
  | createOutput (settings : OutSettings) (result : Option Nat)
deriving DecidableEq, Repr

/-- The module's mutable state: struct vertical_output_context. -/
structure VCtx where
  is_running : Bool
  ndi_name : String
  ndi_groups : String
  last_error : String
  output : Option Nat
deriving DecidableEq, Repr

/-- Zero-initialised global state (static struct vertical_output_context
vctx = \x7b0\x7d). -/
def vctx0 : VCtx := ⟨false, "", "", "", none⟩

/-- Responses of the OBS host and of the configuration store to the
external calls the module makes during one entry-point invocation. -/
structure Env where
  procHandlerPresent : Bool
  vendorCallOk : Bool
  vendorVideo : Option Nat
  canvasApi : Bool
  canvases : List Canvas
  mainVideo : Nat
  mainAudio : Nat
  startOk : Bool
  startErrorText : String
  cfgEnabled : Bool
  cfgName : String
  cfgGroups : String
  createResult : Option Nat
deriving DecidableEq, Repr

/-- get_aitum_vertical_video: ask the Aitum vendor proc for the vertical
canvas video.  Null when the proc handler is unavailable, the proc cannot
be dispatched, or the call leaves no "video" pointer in the calldata. -/
def get_aitum_vertical_video (env : Env) : Option Nat × List Ev :=
  if env.procHandlerPresent then
    if env.vendorCallOk then (env.vendorVideo, [Ev.callVendorProc])
    else (none, [Ev.callVendorProc])
  else (none, [])

/-- find_aitum_vertical_canvas: scan the frontend canvas list for the
first canvas named exactly AITUM_VERTICAL_CANVAS_NAME. -/
def find_aitum_vertical_canvas (canvases : List Canvas) : Option Canvas :=
  canvases.find? (fun c => c.name = AITUM_VERTICAL_CANVAS_NAME)

/-- The video-source resolution performed inside vertical_output_start
(lines 130-154): vendor proc first, then (when the canvas API is compiled
in) canvas enumeration, then the main program video.  Returns the resolved
video handle together with the external calls consulted. -/
def resolve_vertical_video (env : Env) : Nat × List Ev :=
  let r := get_aitum_vertical_video env
  match r.1 with
  | some v => (v, r.2)
  | none =>
    if env.canvasApi then
      match (find_aitum_vertical_canvas env.canvases).bind (fun c => c.video) with
      | some v => (v, r.2 ++ [Ev.enumCanvases])
      | none => (env.mainVideo, r.2 ++ [Ev.enumCanvases, Ev.getMainVideo])
    else (env.mainVideo, r.2 ++ [Ev.getMainVideo])

/-- vertical_output_stop: when running, detach media, request stop and
mark not running; otherwise only log. -/
def vertical_output_stop (ctx : VCtx) : VCtx × List Ev :=
  if ctx.is_running then
    ({ ctx with is_running := false },
     [Ev.setMedia ctx.output none none, Ev.outputStop ctx.output])
  else (ctx, [])

/-- vertical_output_start: no-op when not initialized; stop first when
already running; resolve a video source, bind it with the main audio,
request start; on success clear last_error and mark running, on failure
record obs_output_get_last_error and force-stop the output. -/
def vertical_output_start (env : Env) (ctx : VCtx) : VCtx × List Ev :=
  match ctx.output with
  | none => (ctx, [])
  | some h =>
    let s := if ctx.is_running then vertical_output_stop ctx else (ctx, [])
    let r := resolve_vertical_video env
    let tr := s.2 ++ r.2 ++ [Ev.setMedia (some h) (some r.1) (some env.mainAudio)]
    if env.startOk then
      ({ s.1 with is_running := true, last_error := "" },
       tr ++ [Ev.outputStart (some h) true])
    else
      ({ s.1 with is_running := false, last_error := env.startErrorText },
       tr ++ [Ev.outputStart (some h) false, Ev.getLastErrorOf (some h),
              Ev.outputStop (some h)])

/-- Settings dictionary built by vertical_output_is_supported. -/
def probeSettings : OutSettings :=
  ⟨"NDI Vertical Support Test", "DistroAV Config", none⟩

/-- vertical_output_is_supported: create a throwaway output, try to start
it, stop and release it, and report whether creation and start both
succeeded. -/
def vertical_output_is_supported (env : Env) : Bool × List Ev :=
  match env.createResult with
  | some h =>
    (env.startOk,
     [Ev.createOutput probeSettings (some h),
      Ev.outputStart (some h) env.startOk,
      Ev.outputStop (some h), Ev.releaseOutput (some h)])
  | none => (false, [Ev.createOutput probeSettings none])

/-- vertical_output_deinit: when an output exists, stop, clear media
defensively, disconnect the start/stop signal handlers, release the
output and clear name/groups. -/
def vertical_output_deinit (ctx : VCtx) : VCtx × List Ev :=
  match ctx.output with
  | none => (ctx, [])
  | some h =>
    let s := vertical_output_stop ctx
    ({ s.1 with output := none, ndi_name := "", ndi_groups := "" },
     s.2 ++ [Ev.setMedia (some h) none none,
             Ev.disconnectSig (some h) "start",
             Ev.disconnectSig (some h) "stop",
             Ev.releaseOutput (some h)])

/-- vertical_output_init: when disabled or unnamed, just deinit.
Otherwise deinit, create an output with settings
\x7bndi_name, ndi_groups, uses_audio := true\x7d; on success connect the
start/stop signal handlers, store name/groups and immediately start; on
creation failure leave the context uninitialised. -/
def vertical_output_init (env : Env) (ctx : VCtx) : VCtx × List Ev :=
  if env.cfgEnabled = false ∨ env.cfgName = "" then
    vertical_output_deinit ctx
  else
    let d := vertical_output_deinit ctx
    let settings : OutSettings := ⟨env.cfgName, env.cfgGroups, some true⟩
    match env.createResult with
    | some h =>
      let ctx2 := { d.1 with output := some h,
                             ndi_name := env.cfgName,
                             ndi_groups := env.cfgGroups }
      let s := vertical_output_start env ctx2
      (s.1, d.2 ++ [Ev.createOutput settings (some h),
                    Ev.connectSig (some h) "start",
                    Ev.connectSig (some h) "stop"] ++ s.2)
    | none =>
      (d.1, d.2 ++ [Ev.createOutput settings none])

/-- The media binding each output handle would hold after a trace of
external calls: obs_output_set_media overwrites it, obs_output_create
starts it out empty. -/
def applyEv (m : Nat → Option Nat × Option Nat) : Ev → Nat → Option Nat × Option Nat
  | Ev.setMedia (some h) v a => fun k => if k = h then (v, a) else m k
  | Ev.createOutput _ (some h) => fun k => if k = h then (none, none) else m k
  | _ => m

/-- Media bindings after a whole trace, starting from no bindings. -/
def mediaAfter (tr : List Ev) : Nat → Option Nat × Option Nat :=
  tr.foldl applyEv (fun _ => (none, none))

/-- One external entry-point invocation, with the host responses it saw. -/
inductive Op where
  | opInit (env : Env)
  | opStart (env : Env)
  | opStop
  | opDeinit
deriving Repr

/-- Dispatch one entry-point invocation. -/
def stepOp (ctx : VCtx) : Op → VCtx × List Ev
  | Op.opInit env => vertical_output_init env ctx
  | Op.opStart env => vertical_output_start env ctx
  | Op.opStop => vertical_output_stop ctx
  | Op.opDeinit => vertical_output_deinit ctx

/-- Accumulate a step onto a (state, trace) pair. -/
def stepAcc (acc : VCtx × List Ev) (op : Op) : VCtx × List Ev :=
  let s := stepOp acc.1 op
  (s.1, acc.2 ++ s.2)

/-- Run a sequence of entry-point invocations from the zero-initialised
module state, collecting the full external-call trace. -/
def runOps (ops : List Op) : VCtx × List Ev :=
  ops.foldl stepAcc (vctx0, [])

/-- The OutputContext data-model invariant: no output implies not running
(and name/groups already cleared), and running implies an output with a
video and an audio source bound. -/
def InvFull (ctx : VCtx) (tr : List Ev) : Prop :=
  (ctx.output = none →
    ctx.is_running = false ∧ ctx.ndi_name = "" ∧ ctx.ndi_groups = "") ∧
  (ctx.is_running = true →
    ∃ h, ctx.output = some h ∧
      (mediaAfter tr h).1.isSome = true ∧ (mediaAfter tr h).2.isSome = true)

theorem aux_vendor_trace (env : Env) :
    Ev.enumCanvases ∉ (get_aitum_vertical_video env).2 ∧
    Ev.getMainVideo ∉ (get_aitum_vertical_video env).2 := by
  unfold get_aitum_vertical_video
  cases hp : env.procHandlerPresent <;> cases hv : env.vendorCallOk <;>
    simp [hp, hv]

theorem aux_resolver_trace_media_free (env : Env)
    (m : Nat → Option Nat × Option Nat) :
    (resolve_vertical_video env).2.foldl applyEv m = m := by
  unfold resolve_vertical_video get_aitum_vertical_video
  cases hp : env.procHandlerPresent <;> cases hv : env.vendorCallOk <;>
    cases hvv : env.vendorVideo <;> cases hc : env.canvasApi <;>
      cases hf : (find_aitum_vertical_canvas env.canvases).bind
          (fun c => c.video) <;>
        simp [hp, hv, hvv, hc, hf, applyEv]

theorem aux_mediaAfter_append (t1 t2 : List Ev) :
    mediaAfter (t1 ++ t2) = t2.foldl applyEv (mediaAfter t1) := by
  simp [mediaAfter, List.foldl_append]

theorem aux_deinit_fst_some (ctx : VCtx) (k : Nat) (ho : ctx.output = some k) :
    (vertical_output_deinit ctx).1 = ⟨false, "", "", ctx.last_error, none⟩ := by
  obtain ⟨ir, nn, ng, le, out⟩ := ctx
  cases ir <;> simp_all [vertical_output_deinit, vertical_output_stop]

/-- C7: calling stop() when isRunning is false leaves the whole
OutputContext unchanged and performs no session calls (empty trace). -/
theorem stop_noop_when_not_running (ctx : VCtx) (h : ctx.is_running = false) :
    vertical_output_stop ctx = (ctx, []) := by
  simp [vertical_output_stop, h]

theorem stop_noop_when_not_running_witness :
    vctx0.is_running = false ∧ vertical_output_stop vctx0 = (vctx0, []) :=
  ⟨rfl, stop_noop_when_not_running vctx0 rfl⟩

/-- C10: deinit() is idempotent: with no session it changes nothing and
performs no session calls, and a second consecutive deinit() after any
deinit() is a no-op, so deinit;deinit equals a single deinit. -/
theorem deinit_idempotent (ctx : VCtx) :
    (ctx.output = none → vertical_output_deinit ctx = (ctx, [])) ∧
    vertical_output_deinit (vertical_output_deinit ctx).1 =
      ((vertical_output_deinit ctx).1, []) := by
  constructor
  · intro h
    simp [vertical_output_deinit, h]
  · cases hc : ctx.output with
    | none => simp [vertical_output_deinit, hc]
    | some k =>
      rw [aux_deinit_fst_some ctx k hc]
      simp [vertical_output_deinit]

theorem deinit_idempotent_witness :
    vctx0.output = none ∧ vertical_output_deinit vctx0 = (vctx0, []) ∧
    vertical_output_deinit (vertical_output_deinit vctx0).1 =
      ((vertical_output_deinit vctx0).1, []) :=
  ⟨rfl, (deinit_idempotent vctx0).1 rfl, (deinit_idempotent vctx0).2⟩

/-- C4: in the sequence of external calls made by deinit(), both signal
disconnections (for "start" and for "stop") occur strictly before the
session release: any release event in the trace is preceded by both
disconnect events, with no earlier release. -/
theorem deinit_unsubscribes_before_release (ctx : VCtx) (h : Option Nat)
    (hmem : Ev.releaseOutput h ∈ (vertical_output_deinit ctx).2) :
    ∃ pre post,
      (vertical_output_deinit ctx).2 = pre ++ Ev.releaseOutput h :: post ∧
      Ev.disconnectSig h "start" ∈ pre ∧ Ev.disconnectSig h "stop" ∈ pre ∧
      Ev.releaseOutput h ∉ pre := by
  cases hc : ctx.output with
  | none => simp [vertical_output_deinit, hc] at hmem
  | some k =>
    cases hr : ctx.is_running
    · have hh : h = some k := by
        simp [vertical_output_deinit, vertical_output_stop, hc, hr] at hmem
        exact hmem
      subst hh
      refine ⟨[Ev.setMedia (some k) none none,
               Ev.disconnectSig (some k) "start",
               Ev.disconnectSig (some k) "stop"], [], ?_, by simp, by simp, by simp⟩
      simp [vertical_output_deinit, vertical_output_stop, hc, hr]
    · have hh : h = some k := by
        simp [vertical_output_deinit, vertical_output_stop, hc, hr] at hmem
        exact hmem
      subst hh
      refine ⟨[Ev.setMedia (some k) none none, Ev.outputStop (some k),
               Ev.setMedia (some k) none none,
               Ev.disconnectSig (some k) "start",
               Ev.disconnectSig (some k) "stop"], [], ?_, by simp, by simp, by simp⟩
      simp [vertical_output_deinit, vertical_output_stop, hc, hr]

theorem deinit_unsubscribes_before_release_witness :
    Ev.releaseOutput (some 1) ∈
      (vertical_output_deinit ⟨true, "V1", "G", "", some 1⟩).2 ∧
    ∃ pre post,
      (vertical_output_deinit ⟨true, "V1", "G", "", some 1⟩).2 =
        pre ++ Ev.releaseOutput (some 1) :: post ∧
      Ev.disconnectSig (some 1) "start" ∈ pre ∧
      Ev.disconnectSig (some 1) "stop" ∈ pre ∧
      Ev.releaseOutput (some 1) ∉ pre :=
  ⟨by decide,
   deinit_unsubscribes_before_release ⟨true, "V1", "G", "", some 1⟩ (some 1)
     (by decide)⟩

theorem aux_start_trace_media (env : Env) (ctx : VCtx) (k : Nat)
    (ho : ctx.output = some k) (m : Nat → Option Nat × Option Nat) :
    (vertical_output_start env ctx).2.foldl applyEv m k =
      (some (resolve_vertical_video env).1, some env.mainAudio) := by
  simp only [vertical_output_start, ho]
  cases hs : env.startOk <;>
    simp [hs, List.foldl_append, aux_resolver_trace_media_free, applyEv]

/-- C1 (amended): the resolver tries the tiers in strict order, stopping
at the first tier that yields a non-null video handle: a vendor-proc
handle suppresses canvas enumeration and the main-video fallback; with no
vendor handle, a canvas named "Aitum Vertical" whose video handle is
non-null suppresses the main-video fallback; otherwise (no canvas match
or a null canvas video handle, or the canvas API compiled out) the main
program video is returned, so the resolver always returns a handle. -/
theorem resolver_fallback_order (env : Env) :
    (∀ v, (get_aitum_vertical_video env).1 = some v →
       resolve_vertical_video env = (v, (get_aitum_vertical_video env).2) ∧
       Ev.enumCanvases ∉ (resolve_vertical_video env).2 ∧
       Ev.getMainVideo ∉ (resolve_vertical_video env).2) ∧
    (∀ v, (get_aitum_vertical_video env).1 = none → env.canvasApi = true →
       (find_aitum_vertical_canvas env.canvases).bind (fun c => c.video) =
         some v →
       (resolve_vertical_video env).1 = v ∧
       Ev.getMainVideo ∉ (resolve_vertical_video env).2) ∧
    ((get_aitum_vertical_video env).1 = none → env.canvasApi = true →
       (find_aitum_vertical_canvas env.canvases).bind (fun c => c.video) =
         none →
       (resolve_vertical_video env).1 = env.mainVideo) ∧
    ((get_aitum_vertical_video env).1 = none → env.canvasApi = false →
       (resolve_vertical_video env).1 = env.mainVideo) := by
  have hv1 := (aux_vendor_trace env).1
  have hv2 := (aux_vendor_trace env).2
  refine ⟨?_, ?_, ?_, ?_⟩
  · intro v hv
    exact ⟨by simp [resolve_vertical_video, hv],
           by simp [resolve_vertical_video, hv, hv1],
           by simp [resolve_vertical_video, hv, hv2]⟩
  · intro v hn hc hf
    exact ⟨by simp [resolve_vertical_video, hn, hc, hf],
           by simp [resolve_vertical_video, hn, hc, hf, hv2]⟩
  · intro hn hc hf
    simp [resolve_vertical_video, hn, hc, hf]
  · intro hn hc
    simp [resolve_vertical_video, hn, hc]

theorem resolver_fallback_order_cex :
    (get_aitum_vertical_video
        ⟨false, false, none, true, [⟨"Aitum Vertical", none⟩], 5, 6, true,
         "", false, "", "", none⟩).1 = none ∧
    (∃ c ∈ (⟨false, false, none, true, [⟨"Aitum Vertical", none⟩], 5, 6,
             true, "", false, "", "", none⟩ : Env).canvases,
       c.name = AITUM_VERTICAL_CANVAS_NAME) ∧
    (⟨false, false, none, true, [⟨"Aitum Vertical", none⟩], 5, 6, true, "",
      false, "", "", none⟩ : Env).canvasApi = true ∧
    Ev.getMainVideo ∈
      (resolve_vertical_video
        ⟨false, false, none, true, [⟨"Aitum Vertical", none⟩], 5, 6, true,
         "", false, "", "", none⟩).2 := by
  decide

theorem resolver_fallback_order_witness :
    (get_aitum_vertical_video
        ⟨true, true, some 3, true, [⟨"Aitum Vertical", some 9⟩], 5, 6,
         true, "", false, "", "", none⟩).1 = some 3 ∧
    resolve_vertical_video
        ⟨true, true, some 3, true, [⟨"Aitum Vertical", some 9⟩], 5, 6,
         true, "", false, "", "", none⟩ =
      (3, (get_aitum_vertical_video
        ⟨true, true, some 3, true, [⟨"Aitum Vertical", some 9⟩], 5, 6,
         true, "", false, "", "", none⟩).2) ∧
    (get_aitum_vertical_video
        ⟨false, false, none, true, [⟨"Aitum Vertical", some 9⟩], 5, 6,
         true, "", false, "", "", none⟩).1 = none ∧
    (resolve_vertical_video
        ⟨false, false, none, true, [⟨"Aitum Vertical", some 9⟩], 5, 6,
         true, "", false, "", "", none⟩).1 = 9 ∧
    (resolve_vertical_video
        ⟨false, false, none, true, [], 5, 6, true, "", false, "", "",
         none⟩).1 = 5 ∧
    (resolve_vertical_video
        ⟨false, false, none, false, [], 5, 6, true, "", false, "", "",
         none⟩).1 = 5 :=
  ⟨by decide,
   ((resolver_fallback_order _).1 3 (by decide)).1,
   by decide,
   ((resolver_fallback_order _).2.1 9 (by decide) (by decide) (by decide)).1,
   (resolver_fallback_order _).2.2.1 (by decide) (by decide) (by decide),
   (resolver_fallback_order _).2.2.2 (by decide) (by decide)⟩

/-- C2 (amended): when start() on an initialized session sees the start
request fail, afterwards isRunning is false, lastError holds the
session's error text, the session has been force-stopped right after the
failed start request, and the video/audio media bound during the attempt
remains bound to the session (it is only cleared by a later stop() or
deinit()). -/
theorem start_failure_effects (env : Env) (ctx : VCtx) (k : Nat)
    (ho : ctx.output = some k) (hs : env.startOk = false) :
    (vertical_output_start env ctx).1.is_running = false ∧
    (vertical_output_start env ctx).1.last_error = env.startErrorText ∧
    (∃ pre, (vertical_output_start env ctx).2 =
        pre ++ [Ev.outputStart (some k) false, Ev.getLastErrorOf (some k),
                Ev.outputStop (some k)]) ∧
    mediaAfter (vertical_output_start env ctx).2 k =
      (some (resolve_vertical_video env).1, some env.mainAudio) := by
  refine ⟨?_, ?_, ?_, ?_⟩
  · simp [vertical_output_start, ho, hs]
  · simp [vertical_output_start, ho, hs]
  · refine ⟨(if ctx.is_running then vertical_output_stop ctx
             else (ctx, [])).2 ++
            ((resolve_vertical_video env).2 ++
             [Ev.setMedia (some k) (some (resolve_vertical_video env).1)
                (some env.mainAudio)]), ?_⟩
    simp [vertical_output_start, ho, hs]
  · exact aux_start_trace_media env ctx k ho _

theorem start_failure_effects_cex :
    (⟨false, "V1", "G", "", some 1⟩ : VCtx).output = some 1 ∧
    (⟨false, false, none, false, [], 5, 6, false, "device busy", true,
      "V1", "G", some 1⟩ : Env).startOk = false ∧
    (vertical_output_start
        ⟨false, false, none, false, [], 5, 6, false, "device busy", true,
         "V1", "G", some 1⟩
        ⟨false, "V1", "G", "", some 1⟩).1.is_running = false ∧
    (vertical_output_start
        ⟨false, false, none, false, [], 5, 6, false, "device busy", true,
         "V1", "G", some 1⟩
        ⟨false, "V1", "G", "", some 1⟩).1.last_error = "device busy" ∧
    mediaAfter
        (vertical_output_start
          ⟨false, false, none, false, [], 5, 6, false, "device busy", true,
           "V1", "G", some 1⟩
          ⟨false, "V1", "G", "", some 1⟩).2 1 ≠ (none, none) := by
  decide

theorem start_failure_effects_witness :
    (⟨false, "V1", "G", "", some 1⟩ : VCtx).output = some 1 ∧
    (⟨false, false, none, false, [], 5, 6, false, "device busy", true,
      "V1", "G", some 1⟩ : Env).startOk = false ∧
    (vertical_output_start
        ⟨false, false, none, false, [], 5, 6, false, "device busy", true,
         "V1", "G", some 1⟩
        ⟨false, "V1", "G", "", some 1⟩).1.is_running = false ∧
    mediaAfter
        (vertical_output_start
          ⟨false, false, none, false, [], 5, 6, false, "device busy", true,
           "V1", "G", some 1⟩
          ⟨false, "V1", "G", "", some 1⟩).2 1 =
      (some (resolve_vertical_video
          ⟨false, false, none, false, [], 5, 6, false, "device busy", true,
           "V1", "G", some 1⟩).1,
       some (⟨false, false, none, false, [], 5, 6, false, "device busy",
              true, "V1", "G", some 1⟩ : Env).mainAudio) :=
  ⟨rfl, rfl,
   (start_failure_effects _ ⟨false, "V1", "G", "", some 1⟩ 1 rfl rfl).1,
   (start_failure_effects _ ⟨false, "V1", "G", "", some 1⟩ 1 rfl rfl).2.2.2⟩

/-- C3 (amended): lastError is set to the empty string exactly when a
start attempt succeeds, and set to the session's reported error text
(not necessarily non-empty) exactly when a start attempt on an existing
session fails; stop() never modifies lastError; and a start() call with
no session leaves the whole context, in particular lastError,
unchanged. -/
theorem last_error_discipline (env : Env) (ctx : VCtx) :
    (∀ k, ctx.output = some k → env.startOk = true →
       (vertical_output_start env ctx).1.last_error = "") ∧
    (∀ k, ctx.output = some k → env.startOk = false →
       (vertical_output_start env ctx).1.last_error = env.startErrorText) ∧
    (vertical_output_stop ctx).1.last_error = ctx.last_error ∧
    (ctx.output = none → vertical_output_start env ctx = (ctx, [])) := by
  refine ⟨?_, ?_, ?_, ?_⟩
  · intro k ho hs; simp [vertical_output_start, ho, hs]
  · intro k ho hs; simp [vertical_output_start, ho, hs]
  · by_cases hr : ctx.is_running <;> simp [vertical_output_stop, hr]
  · intro ho; simp [vertical_output_start, ho]

theorem last_error_discipline_cex :
    (⟨false, "V1", "G", "old failure", some 1⟩ : VCtx).output = some 1 ∧
    (⟨false, false, none, false, [], 5, 6, false, "", true, "V1", "G",
      some 1⟩ : Env).startOk = false ∧
    (vertical_output_start
        ⟨false, false, none, false, [], 5, 6, false, "", true, "V1", "G",
         some 1⟩
        ⟨false, "V1", "G", "old failure", some 1⟩).1.is_running = false ∧
    (vertical_output_start
        ⟨false, false, none, false, [], 5, 6, false, "", true, "V1", "G",
         some 1⟩
        ⟨false, "V1", "G", "old failure", some 1⟩).1.last_error = "" := by
  decide

theorem last_error_discipline_witness :
    (vertical_output_start
        ⟨false, false, none, false, [], 5, 6, true, "", true, "V1", "G",
         some 1⟩
        ⟨false, "V1", "G", "old", some 1⟩).1.last_error = "" ∧
    (vertical_output_start
        ⟨false, false, none, false, [], 5, 6, false, "busy", true, "V1",
         "G", some 1⟩
        ⟨false, "V1", "G", "", some 1⟩).1.last_error = "busy" ∧
    (vertical_output_stop ⟨true, "V1", "G", "keep", some 1⟩).1.last_error =
      "keep" ∧
    vertical_output_start
        ⟨false, false, none, false, [], 5, 6, true, "", true, "V1", "G",
         some 1⟩ ⟨false, "", "", "keep", none⟩ =
      (⟨false, "", "", "keep", none⟩, []) :=
  ⟨(last_error_discipline _ ⟨false, "V1", "G", "old", some 1⟩).1 1 rfl rfl,
   (last_error_discipline _ ⟨false, "V1", "G", "", some 1⟩).2.1 1 rfl rfl,
   (last_error_discipline
      ⟨false, false, none, false, [], 5, 6, true, "", true, "V1", "G",
       some 1⟩
      ⟨true, "V1", "G", "keep", some 1⟩).2.2.1,
   (last_error_discipline _ ⟨false, "", "", "keep", none⟩).2.2.2 rfl⟩

/-- C8: isSupported() reports true exactly when the throwaway probe
session was created and its start request succeeded, and on every path
any session it created is stopped and then released before returning.
It takes no OutputContext argument and returns none: it cannot read or
write the module state. -/
theorem is_supported_contract (env : Env) :
    ((vertical_output_is_supported env).1 = true ↔
      env.createResult.isSome = true ∧ env.startOk = true) ∧
    (∀ s k,
       Ev.createOutput s (some k) ∈ (vertical_output_is_supported env).2 →
       ∃ pre post, (vertical_output_is_supported env).2 =
         pre ++ Ev.outputStop (some k) :: Ev.releaseOutput (some k) ::
           post) := by
  cases hc : env.createResult with
  | none =>
    refine ⟨by simp [vertical_output_is_supported, hc], ?_⟩
    intro s k hk
    simp [vertical_output_is_supported, hc] at hk
  | some h =>
    refine ⟨by simp [vertical_output_is_supported, hc], ?_⟩
    intro s k hk
    have hk' : k = h := by
      simp [vertical_output_is_supported, hc] at hk
      exact hk.2
    subst hk'
    exact ⟨[Ev.createOutput probeSettings (some k),
            Ev.outputStart (some k) env.startOk], [],
           by simp [vertical_output_is_supported, hc]⟩

theorem is_supported_contract_witness :
    (vertical_output_is_supported
        ⟨false, false, none, false, [], 5, 6, true, "", false, "", "",
         some 1⟩).1 = true ∧
    ∃ pre post,
      (vertical_output_is_supported
          ⟨false, false, none, false, [], 5, 6, true, "", false, "", "",
           some 1⟩).2 =
        pre ++ Ev.outputStop (some 1) :: Ev.releaseOutput (some 1) ::
          post :=
  ⟨(is_supported_contract _).1.mpr ⟨rfl, rfl⟩,
   (is_supported_contract
      ⟨false, false, none, false, [], 5, 6, true, "", false, "", "",
       some 1⟩).2 probeSettings 1 (by decide)⟩

/-- C9 (amended): deinit() clears the context: afterwards the session
handle is null, isRunning is false and name/groups are empty (for a
context satisfying the data-model invariant that a session-less context
already has them cleared); lastError however is preserved by deinit(),
not reset to its initial empty value. -/
theorem deinit_clears_context (ctx : VCtx)
    (hinv : ctx.output = none →
      ctx.is_running = false ∧ ctx.ndi_name = "" ∧ ctx.ndi_groups = "") :
    (vertical_output_deinit ctx).1.output = none ∧
    (vertical_output_deinit ctx).1.is_running = false ∧
    (vertical_output_deinit ctx).1.ndi_name = "" ∧
    (vertical_output_deinit ctx).1.ndi_groups = "" ∧
    (vertical_output_deinit ctx).1.last_error = ctx.last_error := by
  cases hc : ctx.output with
  | none =>
    obtain ⟨h1, h2, h3⟩ := hinv hc
    simp [vertical_output_deinit, hc, h1, h2, h3]
  | some k =>
    rw [aux_deinit_fst_some ctx k hc]
    exact ⟨rfl, rfl, rfl, rfl, rfl⟩

theorem deinit_clears_context_cex :
    (⟨false, "V1", "G", "device busy", some 1⟩ : VCtx).output = some 1 ∧
    (vertical_output_deinit
        ⟨false, "V1", "G", "device busy", some 1⟩).1.last_error ≠ "" := by
  decide

theorem deinit_clears_context_witness :
    (vertical_output_deinit ⟨true, "V1", "G", "err", some 1⟩).1.output =
      none ∧
    (vertical_output_deinit ⟨true, "V1", "G", "err", some 1⟩).1.is_running =
      false ∧
    (vertical_output_deinit ⟨true, "V1", "G", "err", some 1⟩).1.ndi_name =
      "" ∧
    (vertical_output_deinit ⟨true, "V1", "G", "err", some 1⟩).1.ndi_groups =
      "" ∧
    (vertical_output_deinit ⟨true, "V1", "G", "err", some 1⟩).1.last_error =
      (⟨true, "V1", "G", "err", some 1⟩ : VCtx).last_error :=
  deinit_clears_context ⟨true, "V1", "G", "err", some 1⟩ (by decide)

theorem aux_deinit_fst_output (ctx : VCtx) :
    (vertical_output_deinit ctx).1.output = none := by
  cases hc : ctx.output with
  | none => simp [vertical_output_deinit, hc]
  | some k => rw [aux_deinit_fst_some ctx k hc]

theorem aux_deinit_fst_running (ctx : VCtx)
    (hinv : ctx.output = none → ctx.is_running = false) :
    (vertical_output_deinit ctx).1.is_running = false := by
  cases hc : ctx.output with
  | none =>
    simp [vertical_output_deinit, hc]
    exact hinv hc
  | some k => rw [aux_deinit_fst_some ctx k hc]

theorem aux_deinit_no_create (ctx : VCtx) (s : OutSettings)
    (r : Option Nat) :
    Ev.createOutput s r ∉ (vertical_output_deinit ctx).2 := by
  cases hc : ctx.output <;> cases hr : ctx.is_running <;>
    simp [vertical_output_deinit, vertical_output_stop, hc, hr]

/-- C5: init() with the feature disabled or an empty configured name just
runs deinit() (no session created, not running afterwards); otherwise it
runs deinit() unconditionally first and creates a session with settings
(name, groups, uses_audio := true); on successful creation it connects
the start/stop signal handlers, stores name and groups in the context and
immediately runs start(); on creation failure the context stays in the
not-initialized state. -/
theorem init_contract (env : Env) (ctx : VCtx)
    (hinv : ctx.output = none → ctx.is_running = false) :
    ((env.cfgEnabled = false ∨ env.cfgName = "") →
       vertical_output_init env ctx = vertical_output_deinit ctx ∧
       (vertical_output_init env ctx).1.output = none ∧
       (vertical_output_init env ctx).1.is_running = false ∧
       ∀ s r, Ev.createOutput s r ∉ (vertical_output_init env ctx).2) ∧
    (env.cfgEnabled = true → env.cfgName ≠ "" →
       (∀ k, env.createResult = some k →
          vertical_output_init env ctx =
            ((vertical_output_start env
                { (vertical_output_deinit ctx).1 with
                    output := some k, ndi_name := env.cfgName,
                    ndi_groups := env.cfgGroups }).1,
             (vertical_output_deinit ctx).2 ++
               ([Ev.createOutput ⟨env.cfgName, env.cfgGroups, some true⟩
                   (some k),
                 Ev.connectSig (some k) "start",
                 Ev.connectSig (some k) "stop"] ++
                (vertical_output_start env
                  { (vertical_output_deinit ctx).1 with
                      output := some k, ndi_name := env.cfgName,
                      ndi_groups := env.cfgGroups }).2))) ∧
       (env.createResult = none →
          (vertical_output_init env ctx).1.output = none ∧
          (vertical_output_init env ctx).1.is_running = false ∧
          (vertical_output_init env ctx).2 =
            (vertical_output_deinit ctx).2 ++
              [Ev.createOutput ⟨env.cfgName, env.cfgGroups, some true⟩
                 none])) := by
  constructor
  · intro hd
    have he : vertical_output_init env ctx = vertical_output_deinit ctx := by
      unfold vertical_output_init
      rw [if_pos hd]
    refine ⟨he, ?_, ?_, ?_⟩
    · rw [he]; exact aux_deinit_fst_output ctx
    · rw [he]; exact aux_deinit_fst_running ctx hinv
    · intro s r; rw [he]; exact aux_deinit_no_create ctx s r
  · intro hen hnm
    have hcond : ¬(env.cfgEnabled = false ∨ env.cfgName = "") := by
      simp [hen, hnm]
    constructor
    · intro k hk
      unfold vertical_output_init
      rw [if_neg hcond]
      simp only [hk, List.append_assoc]
    · intro hk
      have he2 : vertical_output_init env ctx =
          ((vertical_output_deinit ctx).1,
           (vertical_output_deinit ctx).2 ++
             [Ev.createOutput ⟨env.cfgName, env.cfgGroups, some true⟩
                none]) := by
        unfold vertical_output_init
        rw [if_neg hcond]
        simp only [hk]
      rw [he2]
      exact ⟨aux_deinit_fst_output ctx, aux_deinit_fst_running ctx hinv,
             rfl⟩

theorem init_contract_witness :
    (vctx0.output = none → vctx0.is_running = false) ∧
    vertical_output_init
        ⟨false, false, none, false, [], 5, 6, true, "", false, "V1", "G",
         some 1⟩ vctx0 =
      vertical_output_deinit vctx0 ∧
    vertical_output_init
        ⟨false, false, none, false, [], 5, 6, true, "", true, "V1", "G",
         some 1⟩ vctx0 =
      ((vertical_output_start
          ⟨false, false, none, false, [], 5, 6, true, "", true, "V1", "G",
           some 1⟩
          { (vertical_output_deinit vctx0).1 with
              output := some 1, ndi_name := "V1", ndi_groups := "G" }).1,
       (vertical_output_deinit vctx0).2 ++
         ([Ev.createOutput ⟨"V1", "G", some true⟩ (some 1),
           Ev.connectSig (some 1) "start", Ev.connectSig (some 1) "stop"] ++
          (vertical_output_start
            ⟨false, false, none, false, [], 5, 6, true, "", true, "V1",
             "G", some 1⟩
            { (vertical_output_deinit vctx0).1 with
                output := some 1, ndi_name := "V1",
                ndi_groups := "G" }).2)) ∧
    (vertical_output_init
        ⟨false, false, none, false, [], 5, 6, true, "", true, "V1", "G",
         none⟩ vctx0).1.output = none :=
  ⟨fun _ => rfl,
   ((init_contract _ vctx0 (fun _ => rfl)).1 (Or.inl rfl)).1,
   ((init_contract _ vctx0 (fun _ => rfl)).2 rfl (by decide)).1 1 rfl,
   (((init_contract _ vctx0 (fun _ => rfl)).2 rfl (by decide)).2 rfl).1⟩

theorem aux_invfull_of_fresh (ctx : VCtx) (k : Nat)
    (ho : ctx.output = some k) (hr : ctx.is_running = false)
    (tr : List Ev) : InvFull ctx tr := by
  constructor
  · intro hout
    rw [ho] at hout
    cases hout
  · intro hrun
    rw [hr] at hrun
    cases hrun

theorem aux_stop_preserves (ctx : VCtx) (tr : List Ev) (h : InvFull ctx tr) :
    InvFull (vertical_output_stop ctx).1
      (tr ++ (vertical_output_stop ctx).2) := by
  obtain ⟨ir, nn, ng, le, out⟩ := ctx
  cases ir
  · simpa [vertical_output_stop] using h
  · refine ⟨fun hout => ?_, fun hrun => ?_⟩
    · simp only [vertical_output_stop] at hout ⊢
      cases (h.1 (by simpa using hout)).1
    · simp [vertical_output_stop] at hrun

theorem aux_deinit_preserves (ctx : VCtx) (tr : List Ev)
    (h : InvFull ctx tr) :
    InvFull (vertical_output_deinit ctx).1
      (tr ++ (vertical_output_deinit ctx).2) := by
  cases hc : ctx.output with
  | none => simpa [vertical_output_deinit, hc] using h
  | some k =>
    rw [aux_deinit_fst_some ctx k hc]
    exact ⟨fun _ => ⟨rfl, rfl, rfl⟩, fun hrun => by cases hrun⟩

theorem aux_start_preserves (env : Env) (ctx : VCtx) (tr : List Ev)
    (h : InvFull ctx tr) :
    InvFull (vertical_output_start env ctx).1
      (tr ++ (vertical_output_start env ctx).2) := by
  obtain ⟨ir, nn, ng, le, out⟩ := ctx
  cases out with
  | none => simpa [vertical_output_start] using h
  | some k =>
    have hmedia :=
      aux_start_trace_media env ⟨ir, nn, ng, le, some k⟩ k rfl
        (mediaAfter tr)
    cases hs : env.startOk
    · refine ⟨fun hout => ?_, fun hrun => ?_⟩
      · cases ir <;>
          simp [vertical_output_start, vertical_output_stop, hs] at hout
      · cases ir <;>
          simp [vertical_output_start, vertical_output_stop, hs] at hrun
    · refine ⟨fun hout => ?_, fun _ => ?_⟩
      · cases ir <;>
          simp [vertical_output_start, vertical_output_stop, hs] at hout
      · refine ⟨k, ?_, ?_, ?_⟩
        · cases ir <;>
            simp [vertical_output_start, vertical_output_stop, hs]
        · rw [aux_mediaAfter_append, hmedia]
          rfl
        · rw [aux_mediaAfter_append, hmedia]
          rfl

theorem aux_init_preserves (env : Env) (ctx : VCtx) (tr : List Ev)
    (h : InvFull ctx tr) :
    InvFull (vertical_output_init env ctx).1
      (tr ++ (vertical_output_init env ctx).2) := by
  by_cases hd : env.cfgEnabled = false ∨ env.cfgName = ""
  · have he : vertical_output_init env ctx = vertical_output_deinit ctx := by
      unfold vertical_output_init; rw [if_pos hd]
    rw [he]
    exact aux_deinit_preserves ctx tr h
  · cases hk : env.createResult with
    | none =>
      have he : vertical_output_init env ctx =
          ((vertical_output_deinit ctx).1,
           (vertical_output_deinit ctx).2 ++
             [Ev.createOutput ⟨env.cfgName, env.cfgGroups, some true⟩
                none]) := by
        unfold vertical_output_init; rw [if_neg hd]; simp only [hk]
      rw [he]
      have hbase := aux_deinit_preserves ctx tr h
      refine ⟨hbase.1, fun hrun => ?_⟩
      have hnr := aux_deinit_fst_running ctx (fun hc => (h.1 hc).1)
      rw [hnr] at hrun; cases hrun
    | some k =>
      have he : vertical_output_init env ctx =
          ((vertical_output_start env
              { (vertical_output_deinit ctx).1 with
                  output := some k, ndi_name := env.cfgName,
                  ndi_groups := env.cfgGroups }).1,
           (vertical_output_deinit ctx).2 ++
             ([Ev.createOutput ⟨env.cfgName, env.cfgGroups, some true⟩
                 (some k),
               Ev.connectSig (some k) "start",
               Ev.connectSig (some k) "stop"] ++
              (vertical_output_start env
                { (vertical_output_deinit ctx).1 with
                    output := some k, ndi_name := env.cfgName,
                    ndi_groups := env.cfgGroups }).2)) := by
        unfold vertical_output_init; rw [if_neg hd]
        simp only [hk, List.append_assoc]
      rw [he]
      have hnr : ({ (vertical_output_deinit ctx).1 with
          output := some k, ndi_name := env.cfgName,
          ndi_groups := env.cfgGroups } : VCtx).is_running = false :=
        aux_deinit_fst_running ctx (fun hc => (h.1 hc).1)
      have h2 := aux_invfull_of_fresh _ k rfl hnr
        ((tr ++ (vertical_output_deinit ctx).2) ++
          [Ev.createOutput ⟨env.cfgName, env.cfgGroups, some true⟩
             (some k),
           Ev.connectSig (some k) "start", Ev.connectSig (some k) "stop"])
      have h3 := aux_start_preserves env _ _ h2
      refine ⟨h3.1, fun hrun => ?_⟩
      have h4 := h3.2 hrun
      simpa [List.append_assoc] using h4

theorem aux_stepOp_preserves (ctx : VCtx) (tr : List Ev) (op : Op)
    (h : InvFull ctx tr) :
    InvFull (stepOp ctx op).1 (tr ++ (stepOp ctx op).2) := by
  cases op with
  | opInit env => exact aux_init_preserves env ctx tr h
  | opStart env => exact aux_start_preserves env ctx tr h
  | opStop => exact aux_stop_preserves ctx tr h
  | opDeinit => exact aux_deinit_preserves ctx tr h

theorem aux_foldl_preserves (ops : List Op) :
    ∀ acc : VCtx × List Ev, InvFull acc.1 acc.2 →
      InvFull (ops.foldl stepAcc acc).1 (ops.foldl stepAcc acc).2 := by
  induction ops with
  | nil => intro acc h; exact h
  | cons op ops ih =>
    intro acc h
    rw [List.foldl_cons]
    exact ih (stepAcc acc op) (aux_stepOp_preserves acc.1 acc.2 op h)

/-- C6: along every sequence of init()/start()/stop()/deinit() calls from
the initial module state, the OutputContext invariants hold: a null
session handle forces isRunning = false, and isRunning = true forces a
non-null session with both a video and an audio source bound to it. -/
theorem output_context_invariant (ops : List Op) :
    ((runOps ops).1.output = none → (runOps ops).1.is_running = false) ∧
    ((runOps ops).1.is_running = true →
      ∃ k, (runOps ops).1.output = some k ∧
        (mediaAfter (runOps ops).2 k).1.isSome = true ∧
        (mediaAfter (runOps ops).2 k).2.isSome = true) := by
  have h := aux_foldl_preserves ops (vctx0, [])
    ⟨fun _ => ⟨rfl, rfl, rfl⟩, fun hrun => by cases hrun⟩
  exact ⟨fun hout => (h.1 hout).1, h.2⟩

theorem output_context_invariant_witness :
    (runOps []).1.output = none ∧ (runOps []).1.is_running = false ∧
    (runOps [Op.opInit ⟨false, false, none, false, [], 5, 6, true, "",
       true, "V1", "G", some 1⟩]).1.is_running = true ∧
    ∃ k,
      (runOps [Op.opInit ⟨false, false, none, false, [], 5, 6, true, "",
         true, "V1", "G", some 1⟩]).1.output = some k ∧
      (mediaAfter (runOps [Op.opInit ⟨false, false, none, false, [], 5, 6,
         true, "", true, "V1", "G", some 1⟩]).2 k).1.isSome = true ∧
      (mediaAfter (runOps [Op.opInit ⟨false, false, none, false, [], 5, 6,
         true, "", true, "V1", "G", some 1⟩]).2 k).2.isSome = true :=
  ⟨rfl, (output_context_invariant []).1 rfl, by decide,
   (output_context_invariant _).2 (by decide)⟩

end VerticalOutput
